import Mathlib

/-!
# Verification of the rust-mon telemetry relay

Shallow embedding of the two executables of the repository:

* `src/server.rs` (the Sink): binds `127.0.0.1:8080`, accepts connections
  sequentially, performs one bounded read per connection into a fresh
  zero-initialized 1024-byte buffer, logs the UTF-8-lossy decoding of the
  received prefix, and writes the fixed acknowledgment `"Data received\n"`
  back (with `.unwrap()`, so a write failure panics).

* `src/wasi_metrics/src/bin/metrics_client.rs` (the Collector): loops
  forever, refreshing system metrics, formatting a three-line payload and
  sending it over a fresh TCP connection, sleeping 5 seconds per cycle.

External I/O (the network, the OS, the system metrics) is modelled by
explicit environments; each run produces a trace of observable events.
-/

namespace RustMon

/-! ## UTF-8 lossy decoding (`String::from_utf8_lossy`)

Faithful model of Rust's lossy decoder: valid scalar sequences decode
normally, each maximal invalid subpart is replaced by one U+FFFD
replacement character (Unicode "substitution of maximal subparts", as
implemented by `core::str::Utf8Chunks`).  Bytes are `Nat`s below 256. -/

def replacementChar : Char := Char.ofNat 0xFFFD

/-- Is the byte a UTF-8 continuation byte (`0x80 ..= 0xBF`)? -/
def isCont (b : Nat) : Bool := 0x80 ≤ b && b ≤ 0xBF

/-- Valid second byte of a three-byte sequence headed by `b1`
(per the table in `core::str::validations::run_utf8_validation`). -/
def valid3Second (b1 b2 : Nat) : Bool :=
  (b1 == 0xE0 && 0xA0 ≤ b2 && b2 ≤ 0xBF) ||
  (0xE1 ≤ b1 && b1 ≤ 0xEC && isCont b2) ||
  (b1 == 0xED && 0x80 ≤ b2 && b2 ≤ 0x9F) ||
  (0xEE ≤ b1 && b1 ≤ 0xEF && isCont b2)

/-- Valid second byte of a four-byte sequence headed by `b1`. -/
def valid4Second (b1 b2 : Nat) : Bool :=
  (b1 == 0xF0 && 0x90 ≤ b2 && b2 ≤ 0xBF) ||
  (0xF1 ≤ b1 && b1 ≤ 0xF3 && isCont b2) ||
  (b1 == 0xF4 && 0x80 ≤ b2 && b2 ≤ 0x8F)

/-- One step of the lossy decoder, fuel-indexed so that it is structural
(each step consumes at least one byte, so `l.length` fuel is enough). -/
def utf8DecodeLossyCore : Nat → List Nat → List Char
  | 0, _ => []
  | _ + 1, [] => []
  | fuel + 1, b1 :: rest =>
    if b1 < 0x80 then
      Char.ofNat b1 :: utf8DecodeLossyCore fuel rest
    else if b1 < 0xC2 then
      replacementChar :: utf8DecodeLossyCore fuel rest
    else if b1 < 0xE0 then
      match rest with
      | [] => [replacementChar]
      | b2 :: rest2 =>
        if isCont b2 then
          Char.ofNat ((b1 % 0x20) * 0x40 + b2 % 0x40) :: utf8DecodeLossyCore fuel rest2
        else replacementChar :: utf8DecodeLossyCore fuel (b2 :: rest2)
    else if b1 < 0xF0 then
      match rest with
      | [] => [replacementChar]
      | b2 :: rest2 =>
        if valid3Second b1 b2 then
          match rest2 with
          | [] => [replacementChar]
          | b3 :: rest3 =>
            if isCont b3 then
              Char.ofNat ((b1 % 0x10) * 0x1000 + (b2 % 0x40) * 0x40 + b3 % 0x40) ::
                utf8DecodeLossyCore fuel rest3
            else replacementChar :: utf8DecodeLossyCore fuel (b3 :: rest3)
        else replacementChar :: utf8DecodeLossyCore fuel (b2 :: rest2)
    else if b1 < 0xF5 then
      match rest with
      | [] => [replacementChar]
      | b2 :: rest2 =>
        if valid4Second b1 b2 then
          match rest2 with
          | [] => [replacementChar]
          | b3 :: rest3 =>
            if isCont b3 then
              match rest3 with
              | [] => [replacementChar]
              | b4 :: rest4 =>
                if isCont b4 then
                  Char.ofNat ((b1 % 0x8) * 0x40000 + (b2 % 0x40) * 0x1000 +
                      (b3 % 0x40) * 0x40 + b4 % 0x40) :: utf8DecodeLossyCore fuel rest4
                else replacementChar :: utf8DecodeLossyCore fuel (b4 :: rest4)
            else replacementChar :: utf8DecodeLossyCore fuel (b3 :: rest3)
        else replacementChar :: utf8DecodeLossyCore fuel (b2 :: rest2)
    else
      replacementChar :: utf8DecodeLossyCore fuel rest

/-- Decode a byte list as UTF-8, replacing each maximal invalid subpart by
U+FFFD, exactly as `String::from_utf8_lossy` does. -/
def utf8DecodeLossy (l : List Nat) : List Char :=
  utf8DecodeLossyCore l.length l

/-- `String::from_utf8_lossy` on a byte list. -/
def from_utf8_lossy (l : List Nat) : String := String.mk (utf8DecodeLossy l)

/-! ## The Sink (`src/server.rs`)

The handler body of the accept loop, per accepted connection:

```rust
let mut buffer = [0; 1024];
match stream.read(&mut buffer) {
    Ok(size) => {
        println!("Received data: {}", String::from_utf8_lossy(&buffer[..size]));
        let response = "Data received\n";
        stream.write(response.as_bytes()).unwrap();
    }
    Err(e) => { eprintln!("Failed to read from connection: {}", e); }
}
```

The OS is modelled by a `ConnEnv` per accepted connection: the bytes the
peer has sent (`pending`), and whether the read or the write syscall
fails.  A successful read on a 1024-byte buffer delivers
`pending.take 1024`, leaving the rest unconsumed on the socket. -/

/-- Observable events of the Sink.  `stdout`/`stderr` carry one printed
line (without the terminating newline added by `println!`/`eprintln!`);
`connRead` marks a read syscall on the current connection; `connWrite`
carries the bytes of a write syscall on the current connection. -/
inductive Event where
  | stdout (s : String)
  | stderr (s : String)
  | connRead
  | connWrite (s : String)
deriving DecidableEq, Repr

/-- Environment of one accepted connection: what the peer sent and which
syscalls the OS fails. -/
structure ConnEnv where
  pending : List Nat
  readErr : Option String
  writeErr : Option String
deriving DecidableEq, Repr

/-- `[0; 1024]`: the buffer capacity of the Sink. -/
def bufCapacity : Nat := 1024

/-- Result of running the per-connection handler. -/
structure HandlerResult where
  events : List Event
  unread : List Nat
  readsAttempted : Nat
  panicked : Option String
deriving DecidableEq, Repr

/-- The Sink's per-connection handler (the body of the `Ok(mut stream)`
arm of the accept loop).  A fresh zero-initialized 1024-byte buffer is
allocated; one read is attempted; on success the prefix of length `size`
is decoded lossily and logged, then the fixed acknowledgment is written
with `.unwrap()` (a write failure panics); on read failure the error is
logged to stderr and nothing is written. -/
def handleConn (env : ConnEnv) : HandlerResult :=
  let buffer : List Nat := List.replicate bufCapacity 0
  match env.readErr with
  | some e =>
    { events := [.connRead, .stderr ("Failed to read from connection: " ++ e)]
      unread := env.pending
      readsAttempted := 1
      panicked := none }
  | none =>
    let delivered := env.pending.take bufCapacity
    let size := delivered.length
    let buf := delivered ++ buffer.drop size
    let logged := "Received data: " ++ from_utf8_lossy (buf.take size)
    let response := "Data received\n"
    { events := [.connRead, .stdout logged, .connWrite response]
      unread := env.pending.drop bufCapacity
      readsAttempted := 1
      panicked := env.writeErr.map
        (fun e => "called `Result::unwrap()` on an `Err` value: " ++ e) }

/-- One step of `listener.incoming()`: either a connection is accepted
(with its environment) or the accept itself fails. -/
inductive AcceptResult where
  | conn (env : ConnEnv)
  | acceptErr (e : String)
deriving DecidableEq, Repr

/-- The Sink's accept loop over a finite prefix of `listener.incoming()`:
returns the per-connection event lists, in acceptance order, and the
panic message if an acknowledgment write failure aborted the loop
(processing stops at the panicking connection, as an `unwrap` panic
unwinds out of `main`). -/
def serverRun : List AcceptResult → List (List Event) × Option String
  | [] => ([], none)
  | .acceptErr e :: rest =>
    let r := serverRun rest
    ([Event.stderr ("Failed to establish a connection: " ++ e)] :: r.1, r.2)
  | .conn env :: rest =>
    let h := handleConn env
    match h.panicked with
    | some m => ([h.events], some m)
    | none =>
      let r := serverRun rest
      (h.events :: r.1, r.2)

/-- Flat trace of the accept loop, each event tagged with the index of
the `incoming()` item (connection or failed accept) that produced it. -/
def serverTrace (cs : List AcceptResult) : List (Nat × Event) :=
  ((serverRun cs).1.enum).flatMap fun p => p.2.map fun ev => (p.1, ev)

/-- How the Sink process ends in the model. -/
inductive Outcome where
  | ok
  | errExit (e : String)
  | panicked (m : String)
deriving DecidableEq, Repr

/-- `main` of `src/server.rs`: bind (propagating a failure with `?`),
print the listening banner, then run the accept loop. -/
def serverMain (bindErr : Option String) (cs : List AcceptResult) :
    List Event × Outcome :=
  match bindErr with
  | some e => ([], .errExit e)
  | none =>
    let r := serverRun cs
    (Event.stdout "Server listening on port 8080..." :: r.1.flatten,
     match r.2 with
     | some m => .panicked m
     | none => .ok)

/-! ## The Collector (`src/wasi_metrics/src/bin/metrics_client.rs`)

```rust
fn send_data(data: String) {
    match TcpStream::connect("127.0.0.1:8080") {
        Ok(mut stream) => {
            if let Err(e) = stream.write(data.as_bytes()) {
                eprintln!("Failed to send data: {}", e);
            }
        }
        Err(e) => { eprintln!("Could not connect to server: {}", e); }
    }
}

fn main() {
    let mut system = System::new_all();
    loop {
        system.refresh_all();
        let metrics = format!(
            "Total memory: {} KB\nAvailable memory: {} KB\nCPU load: {}%\n",
            system.total_memory(), system.available_memory(),
            system.processors()[0].cpu_usage());
        send_data(metrics);
        thread::sleep(Duration::from_secs(5));
    }
}
```

Per cycle the environment supplies the sampled metric values (the CPU
usage is carried as the `Display` rendering of the `f32` returned by
`cpu_usage()`) and which of the connect / write syscalls fail. -/

/-- Observable events of the Collector. -/
inductive ClientEvent where
  | refresh
  | connectAttempt
  | writeAttempt (data : String)
  | stderr (s : String)
  | sleep (secs : Nat)
deriving DecidableEq, Repr

/-- Environment of one Collector cycle. -/
structure CycleEnv where
  totalMemory : Nat
  availableMemory : Nat
  cpuUsage : String
  connectErr : Option String
  writeErr : Option String
deriving DecidableEq, Repr

/-- The `format!` call building the payload.  Rust's `u64` `Display`
prints decimal digits, modelled by `toString` on `Nat`; the `f32`
rendering of `cpu_usage()` is the string `cpu`. -/
def formatMetrics (total avail : Nat) (cpu : String) : String :=
  "Total memory: " ++ toString total ++ " KB\nAvailable memory: " ++
    toString avail ++ " KB\nCPU load: " ++ cpu ++ "%\n"

/-- `send_data`: one connect attempt; on failure log and return; on
success one write attempt; on write failure log.  No retry anywhere. -/
def send_data (data : String) (connectErr writeErr : Option String) :
    List ClientEvent :=
  ClientEvent.connectAttempt ::
    match connectErr with
    | some e => [.stderr ("Could not connect to server: " ++ e)]
    | none =>
      ClientEvent.writeAttempt data ::
        match writeErr with
        | some e => [.stderr ("Failed to send data: " ++ e)]
        | none => []

/-- One iteration of the Collector's `loop`: refresh the system
snapshot, format the metrics, attempt delivery, sleep 5 seconds. -/
def collectorCycle (env : CycleEnv) : List ClientEvent :=
  ClientEvent.refresh ::
    send_data (formatMetrics env.totalMemory env.availableMemory env.cpuUsage)
        env.connectErr env.writeErr ++
      [ClientEvent.sleep 5]

/-- A finite prefix of the Collector's unbounded loop: every cycle runs,
none is skipped or aborted by a delivery failure. -/
def collectorRun (cycles : List CycleEnv) : List (List ClientEvent) :=
  cycles.map collectorCycle

/-! ## Rust's `str::lines`

Modelled as in `core`: `split_inclusive('\n')`, then each segment is
stripped of one trailing `'\n'` and, only if that was present, one
trailing `'\r'`. -/

/-- `split_inclusive('\n')` on a character list: segments end just after
each newline; a final segment without a newline is kept; the empty input
yields no segments. -/
def splitInclusiveNlAux : List Char → List Char → List (List Char)
  | [], acc => if acc.isEmpty then [] else [acc.reverse]
  | c :: rest, acc =>
    if c = '\n' then (acc.reverse ++ ['\n']) :: splitInclusiveNlAux rest []
    else splitInclusiveNlAux rest (c :: acc)

def splitInclusiveNl (cs : List Char) : List (List Char) :=
  splitInclusiveNlAux cs []

/-- Strip one trailing `'\n'`, and if one was stripped also one trailing
`'\r'` (the per-segment map of `str::lines`). -/
def rustLineMap (l : List Char) : List Char :=
  match l.reverse with
  | [] => l
  | c :: r =>
    if c = '\n' then
      match r with
      | [] => []
      | c2 :: r2 => if c2 = '\r' then r2.reverse else r.reverse
    else l

/-- Rust's `str::lines` on a string. -/
def rustLines (s : String) : List String :=
  (splitInclusiveNl s.data).map fun l => String.mk (rustLineMap l)

/-- Two `incoming()` items with the same error shape: same accept
outcome and, for accepted connections, the same read/write syscall
outcomes — the payloads may differ. -/
def sameErrShape : AcceptResult → AcceptResult → Prop
  | .acceptErr e, .acceptErr e' => e = e'
  | .conn env, .conn env' => env.readErr = env'.readErr ∧ env.writeErr = env'.writeErr
  | _, _ => False

/-! ## Theorems -/

/-- C5: if binding `127.0.0.1:8080` fails, the Sink's `main` terminates
immediately with the propagated error: no banner is printed, no event of
the accept loop ever occurs (for any stream of incoming connections),
and the single bind attempt is not retried. -/
theorem bind_failure_fatal (e : String) (cs : List AcceptResult) :
    serverMain (some e) cs = ([], Outcome.errExit e) := rfl

/-- C6: on a read failure the Sink logs the error to stderr, writes
nothing on the connection, leaves the payload unconsumed, does not
panic, and the accept loop continues with the remaining connections. -/
theorem read_failure_logged_loop_continues (B : List Nat) (e : String)
    (w : Option String) (rest : List AcceptResult) :
    handleConn ⟨B, some e, w⟩ =
      { events := [.connRead, .stderr ("Failed to read from connection: " ++ e)]
        unread := B
        readsAttempted := 1
        panicked := none } ∧
    serverRun (.conn ⟨B, some e, w⟩ :: rest) =
      ((handleConn ⟨B, some e, w⟩).events :: (serverRun rest).1, (serverRun rest).2) :=
  ⟨rfl, rfl⟩

/-- C8: on a zero-byte read the Sink logs the empty decoded string
(`"Received data: "` with nothing after the colon), raises no error, and
still writes the acknowledgment on the connection. -/
theorem zero_length_read_acknowledged :
    handleConn ⟨[], none, none⟩ =
      { events := [.connRead, .stdout "Received data: ",
          .connWrite "Data received\n"]
        unread := []
        readsAttempted := 1
        panicked := none } ∧
    from_utf8_lossy [] = "" := by
  exact ⟨by decide, rfl⟩

/-- C2: a failure of the acknowledgment write is not caught: no stderr
log is produced for it, the handler ends in an `unwrap` panic, and the
accept loop processes no further connection (the panic propagates out of
the connection-handling unit of work), in contrast with the
caught-and-logged read failure. -/
theorem ack_write_failure_panics (B : List Nat) (e : String)
    (rest : List AcceptResult) :
    (handleConn ⟨B, none, some e⟩).panicked =
      some ("called `Result::unwrap()` on an `Err` value: " ++ e) ∧
    (∀ s, Event.stderr s ∉ (handleConn ⟨B, none, some e⟩).events) ∧
    serverRun (.conn ⟨B, none, some e⟩ :: rest) =
      ([(handleConn ⟨B, none, some e⟩).events],
        some ("called `Result::unwrap()` on an `Err` value: " ++ e)) := by
  refine ⟨rfl, ?_, rfl⟩
  intro s h
  simp [handleConn] at h

/-- C1: for a payload `B` of at most 1024 bytes delivered by a single
successful read, the handler's only write on the connection is the
literal `"Data received\n"` (the last event), and the stdout log line
contains the UTF-8-lossy decoding of `B`. -/
theorem echo_acknowledge (B : List Nat) (h : B.length ≤ 1024) :
    handleConn ⟨B, none, none⟩ =
      { events := [.connRead,
          .stdout ("Received data: " ++ from_utf8_lossy B),
          .connWrite "Data received\n"]
        unread := []
        readsAttempted := 1
        panicked := none } ∧
    ∃ pre suf,
      "Received data: " ++ from_utf8_lossy B = pre ++ from_utf8_lossy B ++ suf := by
  constructor
  · have htake : B.take bufCapacity = B :=
      List.take_of_length_le (by simpa [bufCapacity] using h)
    have hkey : ((B.take bufCapacity) ++
          (List.replicate bufCapacity 0).drop (B.take bufCapacity).length).take
            (B.take bufCapacity).length = B.take bufCapacity :=
      List.take_left _ _
    have hdrop : B.drop bufCapacity = [] :=
      List.drop_eq_nil_of_le (by simpa [bufCapacity] using h)
    simp only [handleConn, hkey, htake, hdrop, List.take_left]
    rfl
  · exact ⟨"Received data: ", "", by simp⟩

/-- Witness for C1 at the 5-byte payload `"hello"`. -/
theorem echo_acknowledge_witness :
    ([104, 101, 108, 108, 111] : List Nat).length ≤ 1024 ∧
    (handleConn ⟨[104, 101, 108, 108, 111], none, none⟩ =
      { events := [.connRead,
          .stdout ("Received data: " ++ from_utf8_lossy [104, 101, 108, 108, 111]),
          .connWrite "Data received\n"]
        unread := []
        readsAttempted := 1
        panicked := none } ∧
    ∃ pre suf, "Received data: " ++ from_utf8_lossy [104, 101, 108, 108, 111] =
      pre ++ from_utf8_lossy [104, 101, 108, 108, 111] ++ suf) :=
  ⟨by decide, echo_acknowledge [104, 101, 108, 108, 111] (by decide)⟩

/-- C3: for a payload longer than 1024 bytes the handler attempts
exactly one read, logs only the decoding of the first 1024 bytes,
raises no error (no panic, no stderr), and the remainder stays unread on
the connection — a nonempty leftover. -/
theorem oversized_payload_truncated (B : List Nat) (h : 1024 < B.length) :
    handleConn ⟨B, none, none⟩ =
      { events := [.connRead,
          .stdout ("Received data: " ++ from_utf8_lossy (B.take 1024)),
          .connWrite "Data received\n"]
        unread := B.drop 1024
        readsAttempted := 1
        panicked := none } ∧
    B.drop 1024 ≠ [] := by
  constructor
  · have hkey : ((B.take bufCapacity) ++
          (List.replicate bufCapacity 0).drop (B.take bufCapacity).length).take
            (B.take bufCapacity).length = B.take bufCapacity :=
      List.take_left _ _
    simp only [handleConn, hkey, bufCapacity, List.take_left]
    rfl
  · intro hnil
    have := congrArg List.length hnil
    simp [List.length_drop] at this
    omega

/-- Witness for C3 at a 1025-byte payload of `'a'` bytes. -/
theorem oversized_payload_truncated_witness :
    1024 < (List.replicate 1025 (97 : Nat)).length ∧
    (handleConn ⟨List.replicate 1025 97, none, none⟩ =
      { events := [.connRead,
          .stdout ("Received data: " ++
            from_utf8_lossy ((List.replicate 1025 (97 : Nat)).take 1024)),
          .connWrite "Data received\n"]
        unread := (List.replicate 1025 (97 : Nat)).drop 1024
        readsAttempted := 1
        panicked := none } ∧
    (List.replicate 1025 (97 : Nat)).drop 1024 ≠ []) :=
  ⟨by rw [List.length_replicate]; omega,
    oversized_payload_truncated (List.replicate 1025 97)
      (by rw [List.length_replicate]; omega)⟩

/-- C7: every Collector cycle runs in full regardless of the others'
outcomes: the i-th cycle of a run is exactly `collectorCycle` of the
i-th environment; a failed connect is logged to stderr with no write
attempt and no retry; a failed write is logged to stderr after the
single write attempt; and every cycle ends with the fixed 5-second
sleep. -/
theorem collector_cycles_independent (cycles : List CycleEnv) (i : Nat)
    (env : CycleEnv) (h : cycles[i]? = some env) :
    (collectorRun cycles)[i]? = some (collectorCycle env) ∧
    (∀ e, env.connectErr = some e →
      collectorCycle env = [.refresh, .connectAttempt,
        .stderr ("Could not connect to server: " ++ e), .sleep 5]) ∧
    (∀ e, env.connectErr = none → env.writeErr = some e →
      collectorCycle env = [.refresh, .connectAttempt,
        .writeAttempt (formatMetrics env.totalMemory env.availableMemory env.cpuUsage),
        .stderr ("Failed to send data: " ++ e), .sleep 5]) ∧
    (collectorCycle env).getLast? = some (.sleep 5) := by
  refine ⟨?_, ?_, ?_, ?_⟩
  · simp [collectorRun, h]
  · intro e he
    simp [collectorCycle, send_data, he]
  · intro e hc hw
    simp [collectorCycle, send_data, hc, hw]
  · rcases hc : env.connectErr with _ | e <;> rcases hw : env.writeErr with _ | e' <;>
      simp [collectorCycle, send_data, hc, hw]

/-- Witness for C7: a two-cycle run whose first cycle fails to connect
and whose second cycle fails the payload write; both cycles execute. -/
theorem collector_cycles_independent_witness :
    ([(⟨100, 50, "25", some "refused", none⟩ : CycleEnv),
      ⟨100, 50, "250.5", none, some "broken pipe"⟩][0]? =
        some ⟨100, 50, "25", some "refused", none⟩) ∧
    ((collectorRun [⟨100, 50, "25", some "refused", none⟩,
        ⟨100, 50, "250.5", none, some "broken pipe"⟩])[0]? =
      some (collectorCycle ⟨100, 50, "25", some "refused", none⟩) ∧
    (∀ e, (some "refused" : Option String) = some e →
      collectorCycle ⟨100, 50, "25", some "refused", none⟩ =
        [.refresh, .connectAttempt,
          .stderr ("Could not connect to server: " ++ e), .sleep 5]) ∧
    (∀ e, (some "refused" : Option String) = none →
      (none : Option String) = some e →
      collectorCycle ⟨100, 50, "25", some "refused", none⟩ =
        [.refresh, .connectAttempt,
          .writeAttempt (formatMetrics 100 50 "25"),
          .stderr ("Failed to send data: " ++ e), .sleep 5]) ∧
    (collectorCycle ⟨100, 50, "25", some "refused", none⟩).getLast? =
      some (.sleep 5)) :=
  ⟨rfl, collector_cycles_independent
    [⟨100, 50, "25", some "refused", none⟩,
      ⟨100, 50, "250.5", none, some "broken pipe"⟩] 0 _ rfl⟩

/-- Every tag in the flattened enumeration starting at `k` is at
least `k`. -/
theorem tag_ge_of_mem_enumFrom_flatten (L : List (List Event)) (k : Nat)
    (p : Nat × Event)
    (hp : p ∈ (List.enumFrom k L).flatMap fun q => q.2.map fun ev => (q.1, ev)) :
    k ≤ p.1 := by
  induction L generalizing k with
  | nil => simp [List.enumFrom] at hp
  | cons l L ih =>
    simp only [List.enumFrom, List.flatMap_cons, List.mem_append] at hp
    rcases hp with hp | hp
    · rcases List.mem_map.mp hp with ⟨ev, _, rfl⟩
      exact Nat.le_refl k
    · exact Nat.le_of_succ_le (ih (k + 1) hp)

/-- The flattened enumeration starting at `k` has monotone tags. -/
theorem enumFrom_flatten_tags_monotone (L : List (List Event)) (k : Nat) :
    List.Pairwise (fun p q => p.1 ≤ q.1)
      ((List.enumFrom k L).flatMap fun q => q.2.map fun ev => (q.1, ev)) := by
  induction L generalizing k with
  | nil => simp [List.enumFrom]
  | cons l L ih =>
    simp only [List.enumFrom, List.flatMap_cons]
    rw [List.pairwise_append]
    refine ⟨?_, ih (k + 1), ?_⟩
    · rw [List.pairwise_map]
      exact List.Pairwise.imp (fun _ => Nat.le_refl k)
        (List.pairwise_of_forall_mem_list fun _ _ _ _ => trivial)
    · intro x hx y hy
      rcases List.mem_map.mp hx with ⟨ev, _, rfl⟩
      exact Nat.le_of_succ_le (tag_ge_of_mem_enumFrom_flatten L (k + 1) y hy)

/-- C9: the Sink is strictly sequential.  In the tagged trace of the
accept loop, every event of an earlier-accepted connection precedes
every event of a later-accepted one: handling of connection `i` —
including its read, its log line and its acknowledgment write — is
complete before any event (in particular the read) of connection `i+1`
occurs. -/
theorem sequential_acceptance (cs : List AcceptResult) :
    List.Pairwise (fun p q => p.1 ≤ q.1) (serverTrace cs) := by
  have h := enumFrom_flatten_tags_monotone (serverRun cs).1 0
  simpa [serverTrace, List.enum] using h

/-- C10: the Sink's output for a given connection is a function of that
connection's input alone.  The handler allocates a fresh zero-initialized
buffer and decodes only the prefix of the read's length, so for two runs
whose earlier `incoming()` items agree on everything except the payload
bytes (same accept outcomes, same read/write syscall outcomes) and whose
`i`-th items are equal, the `i`-th per-connection event list — in
particular the stdout log line — is the same: no stale data from an
earlier connection ever appears. -/
theorem per_connection_log_independent (i : Nat) (cs1 cs2 : List AcceptResult)
    (hshape : List.Forall₂ sameErrShape (cs1.take i) (cs2.take i))
    (hi : cs1[i]? = cs2[i]?) :
    (serverRun cs1).1[i]? = (serverRun cs2).1[i]? := by
  induction i generalizing cs1 cs2 with
  | zero =>
    match cs1, cs2 with
    | [], [] => rfl
    | [], c2 :: t2 => simp at hi
    | c1 :: t1, [] => simp at hi
    | c1 :: t1, c2 :: t2 =>
      simp only [List.getElem?_cons_zero, Option.some.injEq] at hi
      subst hi
      rcases c1 with env | e
      · simp only [serverRun]
        rcases hp : (handleConn env).panicked with _ | m <;> simp
      · simp [serverRun]
  | succ i ih =>
    match cs1, cs2 with
    | [], [] => rfl
    | [], c2 :: t2 =>
      simp [List.take_succ_cons] at hshape
    | c1 :: t1, [] =>
      simp [List.take_succ_cons] at hshape
    | c1 :: t1, c2 :: t2 =>
      simp only [List.take_succ_cons] at hshape
      rcases hshape with _ | ⟨hhead, htail⟩
      simp only [List.getElem?_cons_succ] at hi
      rcases c1 with env1 | e1 <;> rcases c2 with env2 | e2
      · rcases hhead with ⟨hre, hwe⟩
        simp only [serverRun]
        rcases hr : env1.readErr with _ | e
        · rcases hw : env1.writeErr with _ | w
          · have h1 : (handleConn env1).panicked = none := by
              simp [handleConn, hr, hw]
            have h2 : (handleConn env2).panicked = none := by
              simp [handleConn, ← hre, ← hwe, hr, hw]
            simp only [h1, h2]
            simpa using ih t1 t2 htail hi
          · have h1 : (handleConn env1).panicked =
                some ("called `Result::unwrap()` on an `Err` value: " ++ w) := by
              simp [handleConn, hr, hw]
            have h2 : (handleConn env2).panicked =
                some ("called `Result::unwrap()` on an `Err` value: " ++ w) := by
              simp [handleConn, ← hre, ← hwe, hr, hw]
            simp only [h1, h2]
            simp
        · have h1 : (handleConn env1).panicked = none := by
            simp [handleConn, hr]
          have h2 : (handleConn env2).panicked = none := by
            simp [handleConn, ← hre, hr]
          simp only [h1, h2]
          simpa using ih t1 t2 htail hi
      · exact absurd hhead not_false
      · exact absurd hhead not_false
      · simp only [serverRun]
        simpa using ih t1 t2 htail hi

/-- Witness for C10: two two-connection runs whose first payloads differ
(`"A"` versus `"BC"`) log the same events for the second connection. -/
theorem per_connection_log_independent_witness :
    List.Forall₂ sameErrShape
      (([AcceptResult.conn ⟨[65], none, none⟩,
         AcceptResult.conn ⟨[104, 105], none, none⟩]).take 1)
      (([AcceptResult.conn ⟨[66, 67], none, none⟩,
         AcceptResult.conn ⟨[104, 105], none, none⟩]).take 1) ∧
    ([AcceptResult.conn ⟨[65], none, none⟩,
      AcceptResult.conn ⟨[104, 105], none, none⟩] : List AcceptResult)[1]? =
      ([AcceptResult.conn ⟨[66, 67], none, none⟩,
        AcceptResult.conn ⟨[104, 105], none, none⟩] : List AcceptResult)[1]? ∧
    (serverRun [AcceptResult.conn ⟨[65], none, none⟩,
        AcceptResult.conn ⟨[104, 105], none, none⟩]).1[1]? =
      (serverRun [AcceptResult.conn ⟨[66, 67], none, none⟩,
        AcceptResult.conn ⟨[104, 105], none, none⟩]).1[1]? :=
  ⟨List.Forall₂.cons ⟨rfl, rfl⟩ List.Forall₂.nil, rfl,
    per_connection_log_independent 1 _ _
      (List.Forall₂.cons ⟨rfl, rfl⟩ List.Forall₂.nil) rfl⟩

/-- Decimal digit characters are not newlines. -/
theorem digitChar_lt_ten_ne_nl : ∀ m, m < 10 → Nat.digitChar m ≠ '\n' := by
  decide

/-- `Nat.toDigitsCore` in base 10 never emits a newline (beyond what the
accumulator already holds). -/
theorem toDigitsCore_ne_nl (f : Nat) :
    ∀ (n : Nat) (acc : List Char), (∀ c ∈ acc, c ≠ '\n') →
      ∀ c ∈ Nat.toDigitsCore 10 f n acc, c ≠ '\n' := by
  induction f with
  | zero =>
    intro n acc hacc c hc
    rw [Nat.toDigitsCore] at hc
    exact hacc c hc
  | succ f ih =>
    intro n acc hacc c hc
    rw [Nat.toDigitsCore] at hc
    by_cases hz : n / 10 = 0
    · rw [if_pos hz] at hc
      rcases List.mem_cons.mp hc with rfl | hmem
      · exact digitChar_lt_ten_ne_nl _ (Nat.mod_lt _ (by omega))
      · exact hacc _ hmem
    · rw [if_neg hz] at hc
      refine ih _ _ ?_ c hc
      intro c' hc'
      rcases List.mem_cons.mp hc' with rfl | hmem
      · exact digitChar_lt_ten_ne_nl _ (Nat.mod_lt _ (by omega))
      · exact hacc _ hmem

/-- The decimal rendering of a `Nat` (Rust's `u64` `Display`) contains
no newline. -/
theorem toString_nat_ne_nl (n : Nat) : ∀ c ∈ (toString n).data, c ≠ '\n' := by
  have h : (toString n).data = Nat.toDigitsCore 10 (n + 1) n [] := rfl
  rw [h]
  exact toDigitsCore_ne_nl (n + 1) n [] (by simp)

/-- `split_inclusive('\n')` passes over a newline-free segment, pushing
it (reversed) onto the accumulator. -/
theorem splitAux_skip (seg : List Char) (hseg : ∀ c ∈ seg, c ≠ '\n') :
    ∀ (rest acc : List Char),
      splitInclusiveNlAux (seg ++ rest) acc =
        splitInclusiveNlAux rest (seg.reverse ++ acc) := by
  induction seg with
  | nil => intro rest acc; simp
  | cons c cs ih =>
    intro rest acc
    have hc : c ≠ '\n' := hseg c (List.mem_cons_self c cs)
    simp only [List.cons_append, splitInclusiveNlAux, if_neg hc, List.append_eq]
    rw [ih (fun c' h' => hseg c' (List.mem_cons_of_mem _ h'))]
    simp

/-- `split_inclusive('\n')` emits a segment at a newline. -/
theorem splitAux_newline (rest acc : List Char) :
    splitInclusiveNlAux ('\n' :: rest) acc =
      (acc.reverse ++ ['\n']) :: splitInclusiveNlAux rest [] := by
  simp [splitInclusiveNlAux]

/-- The per-segment map of `str::lines` strips the trailing newline of a
segment not ending in `'\r'`. -/
theorem rustLineMap_append_nl (l : List Char) (h : l.getLast? ≠ some '\r') :
    rustLineMap (l ++ ['\n']) = l := by
  have hrev : (l ++ ['\n']).reverse = '\n' :: l.reverse := by simp
  rw [rustLineMap, hrev]
  dsimp only
  rw [if_pos rfl]
  cases hl : l.reverse with
  | nil => simpa using congrArg List.reverse hl
  | cons c2 r2 =>
    have hc2 : c2 ≠ '\r' := by
      intro hc
      subst hc
      apply h
      rw [← List.head?_reverse, hl]
      rfl
    dsimp only
    rw [if_neg hc2, ← hl, List.reverse_reverse]

/-- Building a string from concatenated character data is appending the
strings. -/
theorem mk_append (a b : List Char) :
    String.mk (a ++ b) = String.mk a ++ String.mk b := rfl

/-- Rebuilding a string from its character data is the identity. -/
theorem mk_data (s : String) : String.mk s.data = s := rfl

/-- String concatenation is associative. -/
theorem strAppend_assoc (a b c : String) : (a ++ b) ++ c = a ++ (b ++ c) :=
  congrArg String.mk (List.append_assoc a.data b.data c.data)

/-- Per-line shape of the payload: a newline-terminated segment made of
three newline-free blocks maps to the blocks with the newline stripped. -/
theorem rustLineMap_line (a b c : List Char) (hc : c ≠ [])
    (h : c.getLast? ≠ some '\r') :
    rustLineMap (a ++ (b ++ (c ++ ['\n']))) = a ++ (b ++ c) := by
  have he : a ++ (b ++ (c ++ ['\n'])) = (a ++ (b ++ c)) ++ ['\n'] := by simp
  rw [he]
  rw [rustLineMap_append_nl]
  rw [List.getLast?_append_of_ne_nil a (fun hx => hc (List.append_eq_nil.mp hx).2)]
  rw [List.getLast?_append_of_ne_nil b hc]
  exact h

/-- C4: the Collector's payload always splits into exactly three lines
matching the literal template, the memory fields being the decimal
renderings of the sampled non-negative integers and the CPU field being
the rendering of `cpu_usage()` passed through unchanged — in particular
never clamped to `[0, 100]`.  The only assumption is that the `f32`
rendering contains no newline, which holds for every Rust float
rendering. -/
theorem payload_format_stable (total avail : Nat) (cpu : String)
    (h : '\n' ∉ cpu.data) :
    rustLines (formatMetrics total avail cpu) =
      ["Total memory: " ++ toString total ++ " KB",
       "Available memory: " ++ toString avail ++ " KB",
       "CPU load: " ++ cpu ++ "%"] ∧
    (rustLines (formatMetrics total avail cpu)).length = 3 := by
  have hcpu : ∀ c ∈ cpu.data, c ≠ '\n' := fun c hc he => h (he ▸ hc)
  have h1 : (" KB\nAvailable memory: " : String).data =
      " KB".data ++ '\n' :: "Available memory: ".data := rfl
  have h2 : (" KB\nCPU load: " : String).data =
      " KB".data ++ '\n' :: "CPU load: ".data := rfl
  have h3 : ("%\n" : String).data = "%".data ++ '\n' :: [] := rfl
  have hdata : (formatMetrics total avail cpu).data =
      "Total memory: ".data ++ ((toString total).data ++ (" KB".data ++
        ('\n' :: ("Available memory: ".data ++ ((toString avail).data ++
        (" KB".data ++ ('\n' :: ("CPU load: ".data ++ (cpu.data ++
        ("%".data ++ ('\n' :: []))))))))))) := by
    simp only [formatMetrics, String.data_append, h1, h2, h3,
      List.append_assoc, List.cons_append, List.nil_append]
  have hmain : rustLines (formatMetrics total avail cpu) =
      ["Total memory: " ++ toString total ++ " KB",
       "Available memory: " ++ toString avail ++ " KB",
       "CPU load: " ++ cpu ++ "%"] := by
    rw [rustLines, splitInclusiveNl, hdata]
    rw [splitAux_skip "Total memory: ".data (by decide)]
    rw [splitAux_skip (toString total).data (toString_nat_ne_nl total)]
    rw [splitAux_skip " KB".data (by decide)]
    rw [splitAux_newline]
    rw [splitAux_skip "Available memory: ".data (by decide)]
    rw [splitAux_skip (toString avail).data (toString_nat_ne_nl avail)]
    rw [splitAux_skip " KB".data (by decide)]
    rw [splitAux_newline]
    rw [splitAux_skip "CPU load: ".data (by decide)]
    rw [splitAux_skip cpu.data hcpu]
    rw [splitAux_skip "%".data (by decide)]
    rw [splitAux_newline]
    simp only [splitInclusiveNlAux, List.isEmpty_nil, List.reverse_append,
      List.reverse_reverse, List.reverse_nil, List.nil_append,
      List.append_nil, List.append_assoc, List.map_cons, List.map_nil]
    rw [rustLineMap_line _ _ _ (by decide) (by decide)]
    rw [rustLineMap_line _ _ _ (by decide) (by decide)]
    rw [rustLineMap_line _ _ _ (by decide) (by decide)]
    simp only [mk_append, mk_data, strAppend_assoc, if_true]
    rfl
  exact ⟨hmain, by rw [hmain]; rfl⟩

/-- Witness for C4 with an out-of-range CPU rendering `"250.5"`: the
payload still has exactly the three template lines, with `250.5` passed
through unclamped. -/
theorem payload_format_stable_witness :
    '\n' ∉ ("250.5" : String).data ∧
    (rustLines (formatMetrics 16384 8192 "250.5") =
      ["Total memory: " ++ toString 16384 ++ " KB",
       "Available memory: " ++ toString 8192 ++ " KB",
       "CPU load: " ++ "250.5" ++ "%"] ∧
    (rustLines (formatMetrics 16384 8192 "250.5")).length = 3) :=
  ⟨by decide, payload_format_stable 16384 8192 "250.5" (by decide)⟩

end RustMon
